import Mathlib

/-!
Shallow embedding of the NestJS discovery-service example repository.

The embedded pieces are:
* the `Discover` decorator (`Discover = (v) => SetMetadata(REGISTRY_METADATA_KEY, v)`),
  modelled as an update of a metadata table keyed by type identifier;
* `composeDecorators` (reduceRight over the supplied class decorators);
* `Registry` (`registry.ts`): `providers` record, `getProviders`,
  `onModuleInit` / `scanDiscoverableInstanceWrappers` / `getMetadata` /
  `emitDiscoveredEvent`;
* `MonitoringService` (`monitoring.service.ts`) together with the concrete
  `FooRepository` / `BarRepository` components.

JavaScript conventions embedded explicitly:
* `Reflect.getMetadata` returns `undefined` when no metadata is attached:
  the metadata table has type `TypeId → Option String`;
* the scan filter `({metatype}) => metatype && this.getMetadata(metatype)`
  tests JS truthiness: a `null` metatype and the falsy tag value `""` both
  fail the filter;
* the providers record `Record<string, unknown[]>` is modelled as an
  association list in key-insertion order (the JS own-property order for
  the non-index string keys used as tags here); `{...acc, [type]: v}`
  keeps an existing key at its position and appends a fresh key at the end;
* `getProviders`'s `key ? this.providers[key] : Object.values(...).flat()`
  tests truthiness of `key`: both an omitted key and the falsy key `""`
  select the `Object.values(...).flat()` branch, and a missing key yields
  `undefined`, turned into `[]` by `providers || []`.
-/

/-- Identifier of a component class (`metatype` in a NestJS instance wrapper). -/
abbrev TypeId : Type := Nat

/-- The ambient `reflect-metadata` store, restricted to the single key
`REGISTRY_METADATA_KEY`: for each type, the attached tag value, if any. -/
abbrev MetaState : Type := TypeId → Option String

/-- A class decorator: takes the target type and the ambient metadata store,
returns the (possibly replaced) target and the updated store. -/
abbrev Decorator : Type := TypeId → MetaState → TypeId × MetaState

/-- `Discover = (v: unknown) => SetMetadata(REGISTRY_METADATA_KEY, v)`:
records `v` as the target type's metadata for the registry key and returns
the target unchanged (NestJS `SetMetadata` returns its target). -/
def Discover (v : String) : Decorator :=
  fun target meta =>
    (target, fun t => if t = target then some v else meta t)

/-- `@Injectable()` from `@nestjs/common`: sets metadata under keys other
than `REGISTRY_METADATA_KEY`, so on the registry's metadata table it is the
identity. -/
def Injectable : Decorator := fun target meta => (target, meta)

/-- `composeDecorators` body: `decorators.reduceRight((target, decorator) =>
decorator(target), originalTarget)` — the accumulator starts at the original
target and the decorators are applied from the rightmost to the leftmost,
threading the ambient metadata store. -/
def reduceRightApply : List Decorator → TypeId × MetaState → TypeId × MetaState
  | [], p => p
  | d :: ds, p =>
    let p' := reduceRightApply ds p
    d p'.1 p'.2

/-- `composeDecorators(...decorators)` from
`libs/shared/lang-extensions/typescript`. -/
def composeDecorators (decorators : List Decorator) : Decorator :=
  fun originalTarget meta => reduceRightApply decorators (originalTarget, meta)

/-- `REPOSITORY_PROVIDER = 'repository'`. -/
def REPOSITORY_PROVIDER : String := "repository"

/-- `DiscoverableRepository = composeDecorators(Injectable(), Discover(REPOSITORY_PROVIDER))`. -/
def DiscoverableRepository : Decorator :=
  composeDecorators [Injectable, Discover REPOSITORY_PROVIDER]

/-- A NestJS instance wrapper as consumed by
`Registry.scanDiscoverableInstanceWrappers`:
`{ metatype: unknown | null; instance: unknown; name: string }`.
The instance type is a parameter `α` (it is `unknown` in the source). -/
structure Wrapper (α : Type) where
  metatype : Option TypeId
  inst : α
  name : String
deriving DecidableEq, Repr

/-- `Registry.getMetadata(metatype) = Reflect.getMetadata(REGISTRY_METADATA_KEY, metatype)`. -/
def getMetadata (meta : MetaState) (metatype : TypeId) : Option String :=
  meta metatype

/-- JS truthiness of a possibly-absent tag value: `undefined` and the empty
string are falsy, every other string is truthy. -/
def truthy : Option String → Bool
  | none => false
  | some s => ¬(s = "")

/-- The scan filter `({ metatype }) => metatype && this.getMetadata(metatype)`:
the metatype must be non-null and the attached tag value truthy. -/
def discoverable {α : Type} (meta : MetaState) (w : Wrapper α) : Bool :=
  match w.metatype with
  | none => false
  | some m => truthy (getMetadata meta m)

/-- The tag under which a wrapper is indexed: `some t` exactly when the
wrapper passes the scan filter, in which case `t` is
`getMetadata(metatype)` as read again inside the reduce step. -/
def wrapperTag {α : Type} (meta : MetaState) (w : Wrapper α) : Option String :=
  match w.metatype with
  | none => none
  | some m =>
    match getMetadata meta m with
    | none => none
    | some t => if t = "" then none else some t

/-- The `providers` record `Record<string | symbol, unknown[]>`, as an
association list in key-insertion order. -/
abbrev Providers (α : Type) : Type := List (String × List α)

/-- Record read `r[k]`: `undefined` (`none`) when the key is absent. -/
def recordGet {α : Type} : Providers α → String → Option (List α)
  | [], _ => none
  | (k, vs) :: rest, key => if k = key then some vs else recordGet rest key

/-- The reduce step's record update `{...acc, [type]: (acc[type] || []).concat(instance)}`:
an existing key keeps its position and gets the instance appended; a fresh
key is added at the end with a singleton list. -/
def recordSet {α : Type} : Providers α → String → α → Providers α
  | [], key, i => [(key, [i])]
  | (k, vs) :: rest, key, i =>
    if k = key then (k, vs ++ [i]) :: rest else (k, vs) :: recordSet rest key i

/-- `Object.values(r).flat()` over the providers record. -/
def objectValuesFlat {α : Type} (r : Providers α) : List α :=
  (r.map Prod.snd).flatten

/-- The structured record logged by `Registry.emitDiscoveredEvent`:
`{ event: 'DISCOVERED', type: type.toString(), name }`. -/
structure DiscoveredEvent where
  event : String
  type : String
  name : String
deriving DecidableEq, Repr

/-- `emitDiscoveredEvent({type, name})` builds the logged record; for the
string tags used here `type.toString()` is the tag itself. -/
def emitDiscoveredEvent (type : String) (name : String) : DiscoveredEvent :=
  { event := "DISCOVERED", type := type, name := name }

/-- One step of the scan's `reduce`: for a wrapper that passed the filter,
read the tag, emit the discovery event and update the providers record.
(The `none` branch is unreachable on filtered wrappers, where `wrapperTag`
is `some` by definition of the filter.) -/
def scanStep {α : Type} (meta : MetaState)
    (acc : Providers α × List DiscoveredEvent) (w : Wrapper α) :
    Providers α × List DiscoveredEvent :=
  match wrapperTag meta w with
  | none => acc
  | some t => (recordSet acc.1 t w.inst, acc.2 ++ [emitDiscoveredEvent t w.name])

/-- `Registry.scanDiscoverableInstanceWrappers(wrappers)`: filter the
wrappers by `metatype && getMetadata(metatype)`, then reduce into the
providers record starting from `{}`, emitting one discovery event per
surviving wrapper. Returns the built record together with the emitted
events (in the source the events go to the logger). -/
def scanDiscoverableInstanceWrappers {α : Type} (meta : MetaState)
    (wrappers : List (Wrapper α)) : Providers α × List DiscoveredEvent :=
  (wrappers.filter (discoverable meta)).foldl (scanStep meta) ([], [])

/-- The `Registry` service: its only state is the `providers` record. -/
structure Registry (α : Type) where
  providers : Providers α

/-- Field initializer `private providers: Record<string | symbol, unknown[]> = {}`. -/
def Registry.construct {α : Type} : Registry α := ⟨[]⟩

/-- `Registry.onModuleInit()`: populate the providers record by scanning the
wrappers supplied by the surrounding `DiscoveryService`. -/
def Registry.onModuleInit {α : Type} (meta : MetaState)
    (wrappers : List (Wrapper α)) (r : Registry α) : Registry α :=
  { r with providers := (scanDiscoverableInstanceWrappers meta wrappers).1 }

/-- `Registry.getProviders(key?)`:
`key ? this.providers[key] : Object.values(this.providers).flat()`, then
`providers || []`. An omitted key and the falsy key `""` both take the
`Object.values` branch. -/
def Registry.getProviders {α : Type} (r : Registry α) (key : Option String) : List α :=
  match key with
  | some k =>
    if k = "" then objectValuesFlat r.providers
    else (recordGet r.providers k).getD []
  | none => objectValuesFlat r.providers

/-- The `Repository` interface: a zero-argument `check` capability returning
a descriptive string (constant per instance in this repository). -/
structure Repository where
  check : String
deriving DecidableEq, Repr

/-- A `FooRepository` instance: `check()` returns `FooRepository.name`. -/
def fooRepository : Repository := ⟨"FooRepository"⟩

/-- A `BarRepository` instance: `check()` returns `BarRepository.name`. -/
def barRepository : Repository := ⟨"BarRepository"⟩

/-- The `MonitoringService`: its state is the cached repository list. -/
structure MonitoringService where
  repositories : List Repository

/-- Field initializer `private repositories: Repository[] = []`. -/
def MonitoringService.construct : MonitoringService := ⟨[]⟩

/-- `MonitoringService.onModuleInit()`:
`this.repositories = this.registry.getProviders(REPOSITORY_PROVIDER)`. -/
def MonitoringService.onModuleInit (registry : Registry Repository)
    (s : MonitoringService) : MonitoringService :=
  { s with repositories := registry.getProviders (some REPOSITORY_PROVIDER) }

/-- `MonitoringService.check()`:
`this.repositories.map((repository) => repository.check())`. -/
def MonitoringService.check (s : MonitoringService) : List String :=
  s.repositories.map Repository.check

/-- The wrapper is indexed under tag `t`: used to phrase "the entries of the
input whose type carries tag `t`". -/
def taggedWith {α : Type} (meta : MetaState) (t : String) (w : Wrapper α) : Bool :=
  wrapperTag meta w = some t

lemma discoverable_eq_isSome {α : Type} (meta : MetaState) (w : Wrapper α) :
    discoverable meta w = (wrapperTag meta w).isSome := by
  cases hw : w.metatype with
  | none => simp [discoverable, wrapperTag, hw]
  | some m =>
    cases hm : meta m with
    | none => simp [discoverable, wrapperTag, truthy, getMetadata, hw, hm]
    | some t =>
      by_cases h : t = "" <;>
        simp [discoverable, wrapperTag, truthy, getMetadata, hw, hm, h]

lemma objectValuesFlat_nil {α : Type} : objectValuesFlat ([] : Providers α) = [] := rfl

lemma objectValuesFlat_cons {α : Type} (k : String) (vs : List α) (P : Providers α) :
    objectValuesFlat ((k, vs) :: P) = vs ++ objectValuesFlat P := rfl

lemma recordGet_recordSet {α : Type} (P : Providers α) (t' t : String) (i : α) :
    recordGet (recordSet P t' i) t
      = if t' = t then some ((recordGet P t).getD [] ++ [i]) else recordGet P t := by
  induction P with
  | nil => by_cases h : t' = t <;> simp [recordGet, recordSet, h]
  | cons kv rest ih =>
    obtain ⟨k, vs⟩ := kv
    by_cases hk : k = t'
    · subst hk
      by_cases ht : k = t <;> simp [recordGet, recordSet, ht]
    · by_cases ht : k = t
      · subst ht
        have ht' : ¬(t' = k) := fun h => hk h.symm
        simp [recordGet, recordSet, hk, ht']
      · simp [recordGet, recordSet, hk, ht, ih]

lemma objectValuesFlat_recordSet {α : Type} (P : Providers α) (t : String) (i : α) :
    List.Perm (objectValuesFlat (recordSet P t i)) (objectValuesFlat P ++ [i]) := by
  induction P with
  | nil =>
    simp only [recordSet, objectValuesFlat_cons, objectValuesFlat_nil,
      List.append_nil, List.nil_append]
    exact List.Perm.refl _
  | cons kv rest ih =>
    obtain ⟨k, vs⟩ := kv
    by_cases hk : k = t
    · subst hk
      have hset : recordSet ((k, vs) :: rest) k i = (k, vs ++ [i]) :: rest := by
        simp [recordSet]
      rw [hset, objectValuesFlat_cons, objectValuesFlat_cons,
        List.append_assoc, List.append_assoc]
      exact List.Perm.append_left vs List.perm_append_comm
    · have hset : recordSet ((k, vs) :: rest) t i = (k, vs) :: recordSet rest t i := by
        simp [recordSet, hk]
      rw [hset, objectValuesFlat_cons, objectValuesFlat_cons, List.append_assoc]
      exact List.Perm.append_left vs ih

lemma scan_foldl_events {α : Type} (meta : MetaState) (ws : List (Wrapper α)) :
    ∀ acc : Providers α × List DiscoveredEvent,
      ((ws.filter (discoverable meta)).foldl (scanStep meta) acc).2
        = acc.2 ++ ws.filterMap
            (fun w => (wrapperTag meta w).map (fun t => emitDiscoveredEvent t w.name)) := by
  induction ws with
  | nil => intro acc; simp
  | cons w ws ih =>
    intro acc
    cases hw : wrapperTag meta w with
    | none =>
      have hd : discoverable meta w = false := by rw [discoverable_eq_isSome, hw]; rfl
      simp [List.filter_cons, List.filterMap_cons, hd, hw, ih]
    | some t =>
      have hd : discoverable meta w = true := by rw [discoverable_eq_isSome, hw]; rfl
      simp [List.filter_cons, List.filterMap_cons, hd, hw, ih, scanStep]

lemma scan_foldl_get {α : Type} (meta : MetaState) (t : String) (ws : List (Wrapper α)) :
    ∀ acc : Providers α × List DiscoveredEvent,
      (recordGet ((ws.filter (discoverable meta)).foldl (scanStep meta) acc).1 t).getD []
        = (recordGet acc.1 t).getD []
            ++ (ws.filter (taggedWith meta t)).map Wrapper.inst := by
  induction ws with
  | nil => intro acc; simp
  | cons w ws ih =>
    intro acc
    cases hw : wrapperTag meta w with
    | none =>
      have hd : discoverable meta w = false := by rw [discoverable_eq_isSome, hw]; rfl
      have htw : taggedWith meta t w = false := by simp [taggedWith, hw]
      simp [List.filter_cons, hd, htw, ih]
    | some t' =>
      have hd : discoverable meta w = true := by rw [discoverable_eq_isSome, hw]; rfl
      by_cases h : t' = t
      · subst h
        have htw : taggedWith meta t' w = true := by simp [taggedWith, hw]
        simp [List.filter_cons, hd, htw, ih, scanStep, hw, recordGet_recordSet]
      · have htw : taggedWith meta t w = false := by simp [taggedWith, hw, h]
        simp [List.filter_cons, hd, htw, ih, scanStep, hw, recordGet_recordSet, h]

lemma scan_foldl_flat {α : Type} (meta : MetaState) (ws : List (Wrapper α)) :
    ∀ acc : Providers α × List DiscoveredEvent,
      List.Perm
        (objectValuesFlat ((ws.filter (discoverable meta)).foldl (scanStep meta) acc).1)
        (objectValuesFlat acc.1 ++ (ws.filter (discoverable meta)).map Wrapper.inst) := by
  induction ws with
  | nil =>
    intro acc
    simp only [List.filter_nil, List.foldl_nil, List.map_nil, List.append_nil]
    exact List.Perm.refl _
  | cons w ws ih =>
    intro acc
    cases hw : wrapperTag meta w with
    | none =>
      have hd : discoverable meta w = false := by rw [discoverable_eq_isSome, hw]; rfl
      simp only [List.filter_cons, hd, Bool.false_eq_true, if_false]
      exact ih acc
    | some t =>
      have hd : discoverable meta w = true := by rw [discoverable_eq_isSome, hw]; rfl
      simp only [List.filter_cons, hd, if_true, List.foldl_cons, List.map_cons]
      have hstep1 : (scanStep meta acc w).1 = recordSet acc.1 t w.inst := by
        simp [scanStep, hw]
      have h1 := ih (scanStep meta acc w)
      rw [hstep1] at h1
      refine List.Perm.trans h1 (List.Perm.trans
        (List.Perm.append_right _ (objectValuesFlat_recordSet acc.1 t w.inst)) ?_)
      rw [List.append_assoc, List.singleton_append]

lemma getProviders_onModuleInit_key {α : Type} (meta : MetaState) (S : List (Wrapper α))
    (r : Registry α) (t : String) (ht : t ≠ "") :
    (r.onModuleInit meta S).getProviders (some t)
      = (S.filter (taggedWith meta t)).map Wrapper.inst := by
  show (if t = "" then _ else (recordGet (scanDiscoverableInstanceWrappers meta S).1 t).getD [])
      = _
  rw [if_neg ht]
  unfold scanDiscoverableInstanceWrappers
  simpa [recordGet] using scan_foldl_get meta t S ([], [])

lemma getProviders_onModuleInit_all {α : Type} (meta : MetaState) (S : List (Wrapper α))
    (r : Registry α) :
    List.Perm ((r.onModuleInit meta S).getProviders none)
      ((S.filter (discoverable meta)).map Wrapper.inst) := by
  show List.Perm (objectValuesFlat (scanDiscoverableInstanceWrappers meta S).1) _
  unfold scanDiscoverableInstanceWrappers
  simpa [objectValuesFlat] using scan_foldl_flat meta S ([], [])

lemma filter_tagged_nil {α : Type} (meta : MetaState) (S : List (Wrapper α)) (t : String)
    (hnone : ∀ w ∈ S, wrapperTag meta w ≠ some t) :
    S.filter (taggedWith meta t) = [] := by
  induction S with
  | nil => rfl
  | cons w ws ih =>
    have hw : taggedWith meta t w = false := by
      simp [taggedWith]
      exact hnone w (List.mem_cons_self w ws)
    rw [List.filter_cons, hw]
    simp only [Bool.false_eq_true, if_false]
    exact ih fun x hx => hnone x (List.mem_cons_of_mem w hx)

lemma length_events_eq_length_filter {α : Type} (meta : MetaState) (S : List (Wrapper α)) :
    (S.filterMap
        (fun w => (wrapperTag meta w).map (fun t => emitDiscoveredEvent t w.name))).length
      = (S.filter (discoverable meta)).length := by
  induction S with
  | nil => rfl
  | cons w ws ih =>
    cases hw : wrapperTag meta w with
    | none =>
      have hd : discoverable meta w = false := by rw [discoverable_eq_isSome, hw]; rfl
      simp [List.filterMap_cons, List.filter_cons, hw, hd, ih]
    | some t =>
      have hd : discoverable meta w = true := by rw [discoverable_eq_isSome, hw]; rfl
      simp [List.filterMap_cons, List.filter_cons, hw, hd, ih]

/-- Claim C1, counterexample: with input entries tagged "a", "b", "a" (in
that order), the no-argument `getProviders` returns the instances grouped
by tag — `[10, 30, 20]` — while the subset of the input whose types carry a
tag, in the input's relative order, is `[10, 20, 30]`; so the no-argument
query does not preserve the input's relative order across tags. -/
theorem getProviders_all_not_input_order :
    (Registry.construct.onModuleInit
        (fun n => if n = 0 then some "a" else if n = 1 then some "b"
          else if n = 2 then some "a" else none)
        [⟨some 0, 10, "w1"⟩, ⟨some 1, 20, "w2"⟩, ⟨some 2, 30, "w3"⟩]).getProviders none
      = [10, 30, 20]
    ∧ (([⟨some 0, 10, "w1"⟩, ⟨some 1, 20, "w2"⟩, ⟨some 2, 30, "w3"⟩] :
          List (Wrapper Nat)).filter
        (discoverable (fun n => if n = 0 then some "a" else if n = 1 then some "b"
          else if n = 2 then some "a" else none))).map Wrapper.inst
      = [10, 20, 30]
    ∧ ([10, 30, 20] : List Nat) ≠ [10, 20, 30] := by decide

/-- Claim C1 (amended): after population, the no-argument `getProviders`
returns a permutation of the subset of the input whose types carry a tag
(the per-tag sequences concatenated in tag first-appearance order), and
every returned instance comes from a discoverable entry of the input; no
entry whose type carries no tag contributes. -/
theorem getProviders_all_perm_tagged {α : Type} (meta : MetaState)
    (S : List (Wrapper α)) (r : Registry α) :
    List.Perm ((r.onModuleInit meta S).getProviders none)
      ((S.filter (discoverable meta)).map Wrapper.inst)
    ∧ ∀ i ∈ (r.onModuleInit meta S).getProviders none,
        ∃ w ∈ S, discoverable meta w = true ∧ w.inst = i := by
  refine ⟨getProviders_onModuleInit_all meta S r, fun i hi => ?_⟩
  have hmem : i ∈ (S.filter (discoverable meta)).map Wrapper.inst :=
    (getProviders_onModuleInit_all meta S r).mem_iff.mp hi
  obtain ⟨w, hwmem, hwi⟩ := List.mem_map.mp hmem
  exact ⟨w, (List.mem_filter.mp hwmem).1, (List.mem_filter.mp hwmem).2, hwi⟩

/-- Claim C2: applying the annotation returned by `Discover x` to a type `T`
and then reading the registry metadata of `T` gives back exactly `x`. -/
theorem discover_tag_roundtrip (meta : MetaState) (T : TypeId) (x : String) :
    getMetadata ((Discover x) T meta).2 T = some x := by
  simp [Discover, getMetadata]

/-- Claim C3: `composeDecorators [A, B]` applied to a target `T` equals
applying `B` to `T` first and then `A` to the result — the rightmost
supplied annotation is applied first, the leftmost last. -/
theorem composeDecorators_two_order (A B : Decorator) (T : TypeId) (meta : MetaState) :
    composeDecorators [A, B] T meta = A (B T meta).1 (B T meta).2 := rfl

/-- Claim C4, counterexample: queried with the falsy tag value `""`, for
which no input entry is indexed, `getProviders` does not return the (empty)
list of entries carrying that tag: the JS conditional `key ? ... : ...`
treats `""` as an omitted key and returns every indexed instance. -/
theorem getProviders_falsy_key_counterexample :
    (Registry.construct.onModuleInit
        (fun n => if n = 0 then some "repository" else none)
        [(⟨some 0, 7, "FooRepository"⟩ : Wrapper Nat)]).getProviders (some "")
      = [7]
    ∧ (([(⟨some 0, 7, "FooRepository"⟩ : Wrapper Nat)]).filter
        (taggedWith (fun n => if n = 0 then some "repository" else none) "")).map
          Wrapper.inst
      = []
    ∧ ([7] : List Nat) ≠ [] := by decide

/-- Claim C4 (amended): for every non-empty tag `t`, after population
`getProviders` at `t` returns exactly the instances of the input whose type
carries tag `t`, in the input's relative order — the registry applies no
re-sorting. (Queried with the falsy key `""`, `getProviders` instead
behaves as the no-argument form.) -/
theorem getProviders_key_scan_order {α : Type} (meta : MetaState) (S : List (Wrapper α))
    (r : Registry α) (t : String) (ht : t ≠ "") :
    (r.onModuleInit meta S).getProviders (some t)
      = (S.filter (taggedWith meta t)).map Wrapper.inst :=
  getProviders_onModuleInit_key meta S r t ht

/-- Witness for the amended claim C4 at a concrete input. -/
theorem getProviders_key_scan_order_witness :
    ("repository" : String) ≠ ""
    ∧ (Registry.construct.onModuleInit
          (fun n => if n = 0 then some "repository" else none)
          [(⟨some 0, 7, "FooRepository"⟩ : Wrapper Nat)]).getProviders (some "repository")
        = (([(⟨some 0, 7, "FooRepository"⟩ : Wrapper Nat)]).filter
            (taggedWith (fun n => if n = 0 then some "repository" else none)
              "repository")).map Wrapper.inst :=
  ⟨by decide, getProviders_key_scan_order _ _ _ _ (by decide)⟩

/-- Claim C5: the scan emits exactly one `DISCOVERED` event per input entry
whose type carries a (truthy) tag — the event recording that tag and the
entry's name — and none for the other entries; in particular the number of
events equals the number of discoverable entries. -/
theorem scan_events_one_per_tagged {α : Type} (meta : MetaState) (S : List (Wrapper α)) :
    (scanDiscoverableInstanceWrappers meta S).2
      = S.filterMap
          (fun w => (wrapperTag meta w).map (fun t => emitDiscoveredEvent t w.name))
    ∧ (scanDiscoverableInstanceWrappers meta S).2.length
      = (S.filter (discoverable meta)).length := by
  have hev : (scanDiscoverableInstanceWrappers meta S).2
      = S.filterMap
          (fun w => (wrapperTag meta w).map (fun t => emitDiscoveredEvent t w.name)) := by
    unfold scanDiscoverableInstanceWrappers
    simpa using scan_foldl_events meta S ([], [])
  exact ⟨hev, by rw [hev, length_events_eq_length_filter]⟩

/-- Claim C6, counterexample: `""` is a tag value nothing was ever tagged
with (the single entry carries tag "repository"), yet `getProviders ""` is
not the empty sequence: the falsy key selects the all-providers branch. -/
theorem getProviders_unknown_falsy_counterexample :
    wrapperTag (fun n => if n = 3 then some "repository" else none)
        (⟨some 3, 42, "BarRepository"⟩ : Wrapper Nat) ≠ some ""
    ∧ (Registry.construct.onModuleInit
          (fun n => if n = 3 then some "repository" else none)
          [(⟨some 3, 42, "BarRepository"⟩ : Wrapper Nat)]).getProviders (some "")
        = [42]
    ∧ ([42] : List Nat) ≠ [] := by decide

/-- Claim C6 (amended): for every non-empty tag `t` under which no input
entry is indexed — in particular any tag never attached to any type —
`getProviders` at `t` returns the empty sequence (the query is total, so it
cannot raise); the falsy key `""` instead selects the all-providers branch. -/
theorem getProviders_unknown_key_empty {α : Type} (meta : MetaState)
    (S : List (Wrapper α)) (r : Registry α) (t : String) (ht : t ≠ "")
    (hnone : ∀ w ∈ S, wrapperTag meta w ≠ some t) :
    (r.onModuleInit meta S).getProviders (some t) = [] := by
  rw [getProviders_onModuleInit_key meta S r t ht, filter_tagged_nil meta S t hnone]
  rfl

/-- Witness for the amended claim C6 at a concrete input. -/
theorem getProviders_unknown_key_empty_witness :
    (Registry.construct.onModuleInit
        (fun n => if n = 0 then some "repository" else none)
        [(⟨some 0, 7, "FooRepository"⟩ : Wrapper Nat)]).getProviders (some "unknown")
      = [] :=
  getProviders_unknown_key_empty _ _ _ _ (by decide) (by decide)

/-- Claim C7: on a freshly constructed registry (before `onModuleInit` has
populated anything), `getProviders` returns the empty list for the
no-argument form and for every key, rather than failing. -/
theorem getProviders_before_populate_empty {α : Type} (key : Option String) :
    (Registry.construct : Registry α).getProviders key = [] := by
  cases key with
  | none => rfl
  | some k =>
    by_cases h : k = "" <;>
      simp [Registry.getProviders, Registry.construct, h, recordGet, objectValuesFlat]

/-- Claim C8: if the input holds exactly two entries indexed under
"repository", whose instances' check capability returns "FooRepository" and
"BarRepository" in that discovery order, then after population and the
monitoring service's initialization, `check()` returns
`["FooRepository", "BarRepository"]` in that order; and if the input holds
no entry indexed under "repository", `check()` returns the empty sequence. -/
theorem monitoring_check_end_to_end (meta : MetaState) (S : List (Wrapper Repository))
    (r : Registry Repository) :
    (∀ foo bar : Wrapper Repository,
        S.filter (taggedWith meta REPOSITORY_PROVIDER) = [foo, bar] →
        foo.inst.check = "FooRepository" →
        bar.inst.check = "BarRepository" →
        (MonitoringService.construct.onModuleInit (r.onModuleInit meta S)).check
          = ["FooRepository", "BarRepository"])
    ∧ (S.filter (taggedWith meta REPOSITORY_PROVIDER) = [] →
        (MonitoringService.construct.onModuleInit (r.onModuleInit meta S)).check = []) := by
  have hrep : (REPOSITORY_PROVIDER : String) ≠ "" := by decide
  have hkey := getProviders_onModuleInit_key meta S r REPOSITORY_PROVIDER hrep
  constructor
  · intro foo bar h2 hf hb
    simp [MonitoringService.check, MonitoringService.onModuleInit, hkey, h2, hf, hb]
  · intro h0
    simp [MonitoringService.check, MonitoringService.onModuleInit, hkey, h0]

/-- Witness for claim C8: the repository's own scenario — `FooRepository`
and `BarRepository`, both decorated by `DiscoverableRepository`, discovered
in that order — and the zero-repository scenario. -/
theorem monitoring_check_end_to_end_witness :
    (MonitoringService.construct.onModuleInit
        (Registry.construct.onModuleInit
          ((DiscoverableRepository 1 ((DiscoverableRepository 0 (fun _ => none)).2)).2)
          [⟨some 0, fooRepository, "FooRepository"⟩,
           ⟨some 1, barRepository, "BarRepository"⟩])).check
      = ["FooRepository", "BarRepository"]
    ∧ (MonitoringService.construct.onModuleInit
        (Registry.construct.onModuleInit
          ((DiscoverableRepository 1 ((DiscoverableRepository 0 (fun _ => none)).2)).2)
          ([] : List (Wrapper Repository)))).check = [] :=
  ⟨(monitoring_check_end_to_end _ _ _).1
      ⟨some 0, fooRepository, "FooRepository"⟩
      ⟨some 1, barRepository, "BarRepository"⟩ (by decide) rfl rfl,
   (monitoring_check_end_to_end _ _ _).2 (by decide)⟩

/-- Claim C9: an input entry whose type reference is null, or whose attached
tag value is the falsy `""`, is excluded from the index and produces no
discovery event: the scan of an input containing such an entry equals the
scan of the input with that entry removed. -/
theorem scan_skips_falsy_entry {α : Type} (meta : MetaState)
    (S1 S2 : List (Wrapper α)) (w : Wrapper α)
    (h : w.metatype = none ∨ ∃ m, w.metatype = some m ∧ getMetadata meta m = some "") :
    scanDiscoverableInstanceWrappers meta (S1 ++ w :: S2)
      = scanDiscoverableInstanceWrappers meta (S1 ++ S2) := by
  have hd : discoverable meta w = false := by
    rcases h with h | ⟨m, hm, hmm⟩
    · simp [discoverable, h]
    · simp [discoverable, hm, truthy, hmm]
  unfold scanDiscoverableInstanceWrappers
  have hfilter : (S1 ++ w :: S2).filter (discoverable meta)
      = (S1 ++ S2).filter (discoverable meta) := by
    simp [List.filter_append, List.filter_cons, hd]
  rw [hfilter]

/-- Witness for claim C9: an entry whose type carries the falsy tag `""` is
scanned away. -/
theorem scan_skips_falsy_entry_witness :
    scanDiscoverableInstanceWrappers
        (fun n => if n = 0 then some "repository" else if n = 5 then some "" else none)
        [⟨some 0, (7 : Nat), "Foo"⟩, ⟨some 5, 99, "Falsy"⟩]
      = scanDiscoverableInstanceWrappers
          (fun n => if n = 0 then some "repository" else if n = 5 then some "" else none)
          [⟨some 0, (7 : Nat), "Foo"⟩] :=
  scan_skips_falsy_entry _ [⟨some 0, 7, "Foo"⟩] [] ⟨some 5, 99, "Falsy"⟩
    (Or.inr ⟨5, rfl, by decide⟩)

/-- Claim C10: a freshly constructed monitoring service (before its
initialization hook has snapshotted the registry) returns the empty report
from `check()`, because the cached repository list is initialized to the
empty sequence at construction. -/
theorem monitoring_check_uninitialized_empty :
    MonitoringService.construct.check = [] := rfl
